/-
Formal model of the mashup API (src/api/mashup.py).

The Python module implements a pipeline: validate a request, download audio
sources for a search term, trim each to a fixed duration and merge them in
order, package the result as a zip, and send it by email, removing the
temporary workspace on every exit path.  Each Python function is shallowly
embedded as a Lean function; external effects (the yt-dlp provider, the
filesystem listing, the HTTP client, the environment variable, rmtree) are
passed in explicitly as outcome values, and raised exceptions are modelled
with `Except String`.
-/
import Mathlib

/-! ### Character/string utilities used by the embedding

Python string operations (`in`, `.lower()`, `.strip()`, `.endswith`, `int()`)
are modelled at the `List Char` level so that all definitions compute by
kernel reduction. -/

/-- Boolean list prefix test (models Python startswith-style matching used
below to define substring containment). -/
def isPre : List Char → List Char → Bool
  | [], _ => true
  | _ :: _, [] => false
  | a :: as, b :: bs => a == b && isPre as bs

/-- Boolean substring containment: models Python's `needle in hay`. -/
def isSubstr (needle : List Char) : List Char → Bool
  | [] => isPre needle []
  | c :: rest => isPre needle (c :: rest) || isSubstr needle rest

/-- Boolean list suffix test. -/
def isSuf (needle hay : List Char) : Bool :=
  isPre needle.reverse hay.reverse

/-- Models Python `s.endswith(suffix)`. -/
def strEndsWith (s suffix : String) : Bool :=
  isSuf suffix.data s.data

/-- ASCII lower-casing of one character; models `str.lower()` on the ASCII
messages this program produces. -/
def charLower (c : Char) : Char :=
  if 'A' ≤ c ∧ c ≤ 'Z' then Char.ofNat (c.toNat + 32) else c

/-- ASCII whitespace recognised by the model of Python `str.strip()`. -/
def isSpaceChar (c : Char) : Bool :=
  c = ' ' || c = '\t' || c = '\n' || c = '\r' || c = '\x0b' || c = '\x0c'

/-- Models Python `str.strip()` (ASCII whitespace; the non-ASCII whitespace
Python also strips does not occur in this program's data). -/
def pyStrip (s : String) : String :=
  ⟨((s.data.dropWhile isSpaceChar).reverse.dropWhile isSpaceChar).reverse⟩

/-- Value of a decimal digit character, if any. -/
def digitVal (c : Char) : Option Nat :=
  if '0' ≤ c ∧ c ≤ '9' then some (c.toNat - '0'.toNat) else none

/-- Accumulating decimal parse of a digit list; `none` on any non-digit. -/
def parseDigitsAux (acc : Nat) : List Char → Option Nat
  | [] => some acc
  | c :: cs =>
    match digitVal c with
    | some d => parseDigitsAux (acc * 10 + d) cs
    | none => none

/-- Models Python `int(s)` on a string: optional surrounding whitespace, an
optional sign, then one or more decimal digits (`none` models `ValueError`;
underscore digit grouping is not modelled). -/
def pyIntOfStr (s : String) : Option Int :=
  match (pyStrip s).data with
  | [] => none
  | '+' :: cs =>
    if cs.isEmpty then none else (parseDigitsAux 0 cs).map Int.ofNat
  | '-' :: cs =>
    if cs.isEmpty then none else (parseDigitsAux 0 cs).map (fun n => -(Int.ofNat n))
  | cs => (parseDigitsAux 0 cs).map Int.ofNat

/-- JSON scalar values that can appear in the request fields `num_videos`
and `duration` after `json.loads`. -/
inductive PyVal where
  | str (s : String)
  | int (n : Int)
  | pynone
deriving DecidableEq

/-- Models Python `int(v)`: identity on ints, decimal parse on strings,
`TypeError` (hence `none`) on `None`. -/
def pyInt : PyVal → Option Int
  | .int n => some n
  | .str s => pyIntOfStr s
  | .pynone => none

/-! ### validate_email (src/api/mashup.py lines 14-17)

The source checks `re.match(r'^[a-zA-Z0-9._%+-]+@[a-zA-Z0-9.-]+\.[a-zA-Z]{2,}$', email)`.
The regex is decided directly: the local part is the run before the first
`@`; the domain part matches iff splitting at its last dot leaves a
non-empty domain-character run and at least two letters (any earlier dot
cannot work because the letters-only tail excludes dots). -/

/-- Characters allowed by the regex before the `@`. -/
def isLocalChar (c : Char) : Bool :=
  c.isAlphanum || c = '.' || c = '_' || c = '%' || c = '+' || c = '-'

/-- Characters allowed by the regex between `@` and the final dot. -/
def isDomainChar (c : Char) : Bool :=
  c.isAlphanum || c = '.' || c = '-'

/-- Splits a character list at its last dot, if any. -/
def splitLastDot : List Char → Option (List Char × List Char)
  | [] => none
  | c :: cs =>
    match splitLastDot cs with
    | some (d, t) => some (c :: d, t)
    | none => if c = '.' then some ([], cs) else none

/-- The part after `@` matches the domain part of the regex. -/
def emailDomainOk (tail : List Char) : Bool :=
  match splitLastDot tail with
  | some (d, t) => !d.isEmpty && d.all isDomainChar && decide (2 ≤ t.length) && t.all Char.isAlpha
  | none => false

/-- Models `validate_email` (the `re.match(...) is not None` test). -/
def validate_email (email : String) : Bool :=
  let cs := email.data
  let localPart := cs.takeWhile (fun c => c ≠ '@')
  match cs.dropWhile (fun c => c ≠ '@') with
  | '@' :: tail => !localPart.isEmpty && localPart.all isLocalChar && emailDomainOk tail
  | _ => false

/-! ### validate_inputs and the POST handler core (lines 20-50, 261-293) -/

/-- The parsed JSON request body, restricted to the four fields the handler
reads.  `singer` and `email` are modelled as strings (the source calls
`.strip()` / passes them to a regex, so non-string values would raise before
validation completes and are outside this model); a missing key is `none`. -/
structure RequestData where
  singer : Option String
  num_videos : Option PyVal
  duration : Option PyVal
  email : Option String

/-- Models `validate_inputs(data)`: the error list accumulated in source
order (singer, num_videos, duration, email). -/
def validate_inputs (data : RequestData) : List String :=
  let e1 :=
    match data.singer with
    | none => ["Singer name is required"]
    | some s => if pyStrip s = "" then ["Singer name is required"] else []
  let e2 :=
    match data.num_videos with
    | none => ["Number of videos is required"]
    | some v =>
      match pyInt v with
      | some n =>
        if n ≤ 10 then ["Number of videos must be greater than 10"] else []
      | none => ["Number of videos must be a valid integer"]
  let e3 :=
    match data.duration with
    | none => ["Duration is required"]
    | some v =>
      match pyInt v with
      | some d =>
        if d ≤ 20 then ["Duration must be greater than 20 seconds"] else []
      | none => ["Duration must be a valid integer"]
  let e4 :=
    match data.email with
    | none => ["Valid email address is required"]
    | some em => if validate_email em then [] else ["Valid email address is required"]
  e1 ++ e2 ++ e3 ++ e4

/-- Outcome of the decision core of `handler.do_POST`: either a 400 response
carrying the joined error string (the pipeline is never started), or the
call `create_mashup(singer, num_videos, duration, email)` with the coerced
arguments. -/
inductive PostOutcome where
  | badRequest (error : String)
  | ranPipeline (singer : String) (num_videos : Int) (duration : Int) (email : String)

/-- Whether the outcome invoked `create_mashup`. -/
def invokesPipeline : PostOutcome → Bool
  | .badRequest _ => false
  | .ranPipeline _ _ _ _ => true

/-- Models lines 272-293 of `handler.do_POST`: run `validate_inputs`; on any
error respond 400 and return; otherwise extract
`data['singer'].strip()`, `int(data['num_videos'])`, `int(data['duration'])`,
`data['email'].strip()` and call `create_mashup`.  The fallback arm is dead:
when validation reports no errors every field is present and coerces. -/
def do_POST_core (data : RequestData) : PostOutcome :=
  let errors := validate_inputs data
  if errors.isEmpty then
    match data.singer, data.num_videos.bind pyInt, data.duration.bind pyInt, data.email with
    | some s, some n, some d, some em =>
      .ranPipeline (pyStrip s) n d (pyStrip em)
    | _, _, _, _ => .badRequest ""
  else
    .badRequest (String.intercalate "; " errors)

/-! ### Audio and trim_and_merge (lines 88-126)

An `AudioSegment` is modelled as its waveform, one sample value per
millisecond of audio (`pydub` slices by milliseconds).  `from_mp3`/`export`
round-trips are taken as lossless, so a file in the downloads directory is
its name together with the decoded waveform, or `none` when
`AudioSegment.from_mp3` raises on it. -/

/-- A waveform: one sample per millisecond. -/
abbrev Audio := List Int

/-- A file in the downloads directory: its name and the outcome of decoding
it (`none` models `AudioSegment.from_mp3` raising). -/
structure SourceFile where
  name : String
  decode : Option Audio
deriving DecidableEq

/-- Models `audio[:duration * 1000]` (line 104): truncation to the first
`duration` seconds; a slice past the end is the whole list, as in Python. -/
def pyTrim (a : Audio) (duration : Nat) : Audio :=
  a.take (duration * 1000)

/-- Models the filter `[f for f in os.listdir(downloads_dir) if f.endswith('.mp3')]`
(line 93), applied to the directory listing in the order `os.listdir`
returned it. -/
def mp3Files (listing : List SourceFile) : List SourceFile :=
  listing.filter (fun f => strEndsWith f.name ".mp3")

/-- Models the trim loop (lines 99-111) from enumeration index `idx`
onwards: each file that decodes contributes `(idx, trimmed waveform)`; a
file whose decode raises is skipped by the `except`/`continue`, but the
enumeration index advances either way. -/
def trimLoopAux (duration : Nat) (idx : Nat) : List SourceFile → List (Nat × Audio)
  | [] => []
  | f :: fs =>
    match f.decode with
    | some audio => (idx, pyTrim audio duration) :: trimLoopAux duration (idx + 1) fs
    | none => trimLoopAux duration (idx + 1) fs

/-- The trim loop, `for idx, file in enumerate(mp3_files, 1)`. -/
def trimLoop (duration : Nat) (files : List SourceFile) : List (Nat × Audio) :=
  trimLoopAux duration 1 files

/-- Models `trim_and_merge(downloads_dir, duration, temp_dir)`: filter the
listing to `.mp3` names, fail if none; trim each decodable file, fail if
none survived; otherwise merge the trimmed clips in list order starting
from `AudioSegment.empty()` and return the merged waveform. -/
def trim_and_merge (listing : List SourceFile) (duration : Nat) : Except String Audio :=
  let mp3_files := mp3Files listing
  if mp3_files.isEmpty then
    Except.error "No audio files were downloaded"
  else
    let trimmed_files := trimLoop duration mp3_files
    if trimmed_files.isEmpty then
      Except.error "No audio files could be processed"
    else
      Except.ok ((trimmed_files.map Prod.snd).foldl (fun a b => a ++ b) [])

/-- Written from the spec's words (section 4.4), for comparison with
`trim_and_merge` only: the concatenation of the per-source truncated
waveforms of the decodable sources in the original source-acquisition
order. -/
def specAcquisitionMerge (acq : List SourceFile) (duration : Nat) : Audio :=
  (acq.filterMap (fun f => f.decode.map (fun a => pyTrim a duration))).flatten

/-! ### download_and_convert (lines 53-85)

The external `YoutubeDL.extract_info` call either raises (transport or
extractor failure, message `m`) or returns an info object that may be falsy
(`None`: no usable result set).  The `try` block wraps the inner
`Could not find videos` exception and any provider exception uniformly as
`Download failed: ...`. -/

/-- Outcome of the `ydl.extract_info(search_query, download=True)` call. -/
inductive ProviderOutcome where
  | raised (msg : String)
  | returned (info : Option Unit)

/-- Models `download_and_convert(singer, num_videos, temp_dir)` given the
provider outcome; `ok` corresponds to returning `downloads_dir`. -/
def download_and_convert (singer : String) (o : ProviderOutcome) : Except String Unit :=
  match o with
  | .raised m => Except.error ("Download failed: " ++ m)
  | .returned none =>
    Except.error ("Download failed: " ++ ("Could not find videos for \x27" ++ singer ++ "\x27"))
  | .returned (some _) => Except.ok ()

/-! ### send_email (lines 139-194)

The payload construction (lines 148-174: base64 of the zip, recipient,
subject, HTML body) has no bearing on control flow and is not modelled;
modelled are the call-time credential lookup, the provider call and the
classification of its outcome. -/

/-- Outcome of the `requests.post` call to the notification provider. -/
inductive HttpOutcome where
  | response (status : Nat) (text : String)
  | raisedHttp (msg : String)

/-- The process environment and transport as `send_email` observes them at
call time. -/
structure EmailEnv where
  resend_api_key : Option String
  http : HttpOutcome

/-- The message of the exception raised when `RESEND_API_KEY` is absent
(line 146), before the provider is contacted. -/
def configErrorMsg : String := "RESEND_API_KEY environment variable not set"

/-- Python falsiness of the `os.environ.get('RESEND_API_KEY')` result as
tested by `if not api_key:` (line 145): true for `None` (variable unset)
and also for a variable set to the empty string. -/
def pyFalsyKey : Option String → Bool
  | none => true
  | some s => s = ""

/-- Models `send_email(zip_file, recipient_email, singer)`: read the
credential from the environment at call time and fail with the
configuration error when `if not api_key:` fires (credential unset or set
to the empty string); otherwise post to the provider; status 200 is
success, any other status raises `Resend API error: <text>`, and that
exception or a transport exception is re-raised as
`Failed to send email: ...`. -/
def send_email (env : EmailEnv) : Except String Bool :=
  if pyFalsyKey env.resend_api_key then Except.error configErrorMsg
  else
    match env.http with
    | .raisedHttp m => Except.error ("Failed to send email: " ++ m)
    | .response status text =>
      if status = 200 then Except.ok true
      else Except.error ("Failed to send email: " ++ ("Resend API error: " ++ text))

/-! ### create_mashup (lines 197-231) -/

/-- Models `create_zip(mp3_file, temp_dir)` (lines 129-136): the source has
no failure handling of its own, so it succeeds unless the filesystem raises;
`zipError` carries such an exception's message. -/
def create_zip (zipError : Option String) : Except String Unit :=
  match zipError with
  | some m => Except.error m
  | none => Except.ok ()

/-- All external behaviour one run of `create_mashup` can observe. -/
structure RunEnv where
  provider : ProviderOutcome
  listing : List SourceFile
  zipError : Option String
  email : EmailEnv
  rmtreeRaises : Bool

/-- The body of the `try` block of `create_mashup` (lines 205-217):
download, trim and merge, zip, send, then `return True`; the first failing
stage short-circuits the rest. -/
def stageResult (singer : String) (duration : Nat) (env : RunEnv) : Except String Bool := do
  let _ ← download_and_convert singer env.provider
  let _ ← trim_and_merge env.listing duration
  let _ ← create_zip env.zipError
  let _ ← send_email env.email
  pure true

/-- The rewritten message of line 223. -/
def timeoutHintMsg : String :=
  "Request timed out. Try reducing number of videos to 3-5, or upgrade to Vercel Pro for longer timeout."

/-- Models the test of line 222:
`"timeout" in error_msg.lower() or "time" in error_msg.lower()`. -/
def timeIndicated (m : String) : Bool :=
  isSubstr "timeout".data (m.data.map charLower) || isSubstr "time".data (m.data.map charLower)

/-- Models one `shutil.rmtree(temp_dir)` call, which may itself raise. -/
def rmtreeAttempt (raises : Bool) : Option String :=
  if raises then some "rmtree failed" else none

/-- Models the cleanup of the `finally` block (lines 226-231):
`try: shutil.rmtree(temp_dir) except: pass` — exactly one removal attempt,
with any exception it raises swallowed by the bare `except`.  Returns the
number of attempts made and the exception (if any) escaping the block. -/
def cleanupBlock (raises : Bool) : Nat × Option String :=
  match rmtreeAttempt raises with
  | some _ => (1, none)
  | none => (1, none)

/-- What a run of `create_mashup` produced and how often cleanup ran. -/
structure RunResult where
  outcome : Except String Bool
  cleanupAttempts : Nat

/-- Models `create_mashup(singer, num_videos, duration, email)` with Python
`try`/`except`/`finally` semantics: on success the `finally` block runs and
its escaping exception (if any) would replace the return value; on a stage
failure the `except` block classifies the message (timeout rewrite) and
re-raises, again after the `finally` block, whose escaping exception would
replace the error. -/
def create_mashup (singer : String) (duration : Nat) (env : RunEnv) : RunResult :=
  match stageResult singer duration env with
  | Except.ok v =>
    let c := cleanupBlock env.rmtreeRaises
    { outcome :=
        match c.2 with
        | some m2 => Except.error m2
        | none => Except.ok v
      cleanupAttempts := c.1 }
  | Except.error m =>
    let rewritten := if timeIndicated m then timeoutHintMsg else m
    let c := cleanupBlock env.rmtreeRaises
    { outcome :=
        match c.2 with
        | some m2 => Except.error m2
        | none => Except.error rewritten
      cleanupAttempts := c.1 }

/-- The error message of an `Except`, if it is an error. -/
def errMsg {α : Type} : Except String α → Option String
  | .error m => some m
  | .ok _ => none

/-- The value of an `Except`, if it succeeded. -/
def okVal {α : Type} : Except String α → Option α
  | .error _ => none
  | .ok v => some v

/-! ### Concrete data used in closed statements below -/

/-- A downloaded source decoding to the one-sample waveform `[1]`. -/
def srcA : SourceFile := ⟨"a.mp3", some [1]⟩

/-- A downloaded source decoding to the one-sample waveform `[2]`. -/
def srcB : SourceFile := ⟨"b.mp3", some [2]⟩

/-- A run whose provider call raises a transport timeout. -/
def envT : RunEnv :=
  ⟨ProviderOutcome.raised "Read timed out", [], none,
    ⟨some "k", HttpOutcome.response 200 "ok"⟩, false⟩

/-- A run that reaches delivery with the `RESEND_API_KEY` variable unset. -/
def envK : RunEnv :=
  ⟨ProviderOutcome.returned (some ()), [⟨"a.mp3", some [1]⟩], none,
    ⟨none, HttpOutcome.response 200 "ok"⟩, false⟩

/-- A delivery environment with a credential and a 200 provider response. -/
def emailEnvOk : EmailEnv := ⟨some "key", HttpOutcome.response 200 "ok"⟩

/-- A request at the `num_videos` boundary value 10, all other fields valid. -/
def boundaryData : RequestData :=
  ⟨some "adele", some (PyVal.int 10), some (PyVal.int 25), some "a@b.co"⟩

/-! ### Helper lemmas -/

theorem cleanupBlock_eq (b : Bool) : cleanupBlock b = (1, none) := by
  cases b <;> rfl

theorem isPre_self_append (n t : List Char) : isPre n (n ++ t) = true := by
  induction n with
  | nil => rfl
  | cons a as ih => simp [isPre, ih]

theorem isSubstr_cons (n rest : List Char) (c : Char) (h : isSubstr n rest = true) :
    isSubstr n (c :: rest) = true := by
  simp [isSubstr, h]

theorem isSubstr_self_append (n t : List Char) : isSubstr n (n ++ t) = true := by
  cases hnt : n ++ t with
  | nil =>
    rcases List.append_eq_nil.mp hnt with ⟨hn, _⟩
    subst hn
    rfl
  | cons c rest =>
    rw [isSubstr, ← hnt, isPre_self_append]
    rfl

theorem isSubstr_append_left (pre n suf : List Char) :
    isSubstr n (pre ++ (n ++ suf)) = true := by
  induction pre with
  | nil => simpa using isSubstr_self_append n suf
  | cons c cs ih => simpa using isSubstr_cons _ _ c ih

theorem string_append_data (s t : String) : (s ++ t).data = s.data ++ t.data := rfl

theorem sendFail_ne_configErrorMsg (x : String) :
    "Failed to send email: " ++ x ≠ configErrorMsg := by
  intro h
  have h2 : ("Failed to send email: " ++ x).data = configErrorMsg.data := by rw [h]
  rw [string_append_data] at h2
  simp [configErrorMsg] at h2

theorem foldl_append_eq_flatten (l : List Audio) (init : Audio) :
    l.foldl (fun a b => a ++ b) init = init ++ l.flatten := by
  induction l generalizing init with
  | nil => simp
  | cons a as ih => simp [List.foldl_cons, ih, List.append_assoc]

theorem trimLoopAux_eq_enumFrom (d : Nat) (files : List SourceFile) (i : Nat) :
    trimLoopAux d i files =
      (List.enumFrom i files).filterMap
        (fun p => p.2.decode.map (fun a => (p.1, pyTrim a d))) := by
  induction files generalizing i with
  | nil => rfl
  | cons f fs ih =>
    cases hf : f.decode <;> simp [trimLoopAux, hf, List.enumFrom, List.filterMap_cons, ih]

theorem trimLoopAux_ordinals_lb (d : Nat) (files : List SourceFile) (i : Nat) :
    ∀ p ∈ trimLoopAux d i files, i ≤ p.1 := by
  induction files generalizing i with
  | nil => intro p hp; cases hp
  | cons f fs ih =>
    intro p hp
    cases hf : f.decode with
    | none =>
      rw [trimLoopAux, hf] at hp
      exact Nat.le_of_succ_le (ih (i + 1) p hp)
    | some a =>
      rw [trimLoopAux, hf] at hp
      rcases List.mem_cons.mp hp with h | h
      · subst h; exact Nat.le_refl i
      · exact Nat.le_of_succ_le (ih (i + 1) p h)

theorem trimLoopAux_ordinals_sorted (d : Nat) (files : List SourceFile) (i : Nat) :
    List.Pairwise (· < ·) ((trimLoopAux d i files).map Prod.fst) := by
  induction files generalizing i with
  | nil => exact List.Pairwise.nil
  | cons f fs ih =>
    cases hf : f.decode with
    | none => rw [trimLoopAux, hf]; exact ih (i + 1)
    | some a =>
      rw [trimLoopAux, hf]
      refine List.pairwise_cons.mpr ⟨?_, ih (i + 1)⟩
      intro n hn
      rcases List.mem_map.mp hn with ⟨p, hp, he⟩
      subst he
      exact Nat.lt_of_succ_le (trimLoopAux_ordinals_lb d fs (i + 1) p hp)

theorem trimLoopAux_all_decode (d : Nat) (files : List SourceFile) (i : Nat)
    (h : ∀ f ∈ files, f.decode ≠ none) :
    (trimLoopAux d i files).map Prod.snd =
      files.map (fun f => pyTrim (f.decode.getD []) d) := by
  induction files generalizing i with
  | nil => rfl
  | cons f fs ih =>
    cases hf : f.decode with
    | none => exact absurd hf (h f (List.mem_cons_self f fs))
    | some a =>
      rw [trimLoopAux, hf]
      simp only [List.map_cons, hf, Option.getD_some]
      exact congrArg _ (ih (i + 1) (fun g hg => h g (List.mem_cons_of_mem f hg)))

theorem isSubstr_in_append (pre n : List Char) : isSubstr n (pre ++ n) = true := by
  simpa using isSubstr_append_left pre n []

theorem create_mashup_eq (singer : String) (duration : Nat) (env : RunEnv) :
    create_mashup singer duration env =
      { outcome :=
          match stageResult singer duration env with
          | Except.ok v => Except.ok v
          | Except.error m => Except.error (if timeIndicated m then timeoutHintMsg else m),
        cleanupAttempts := 1 } := by
  unfold create_mashup
  cases stageResult singer duration env <;> simp [cleanupBlock_eq]

theorem validate_inputs_num_at_most (data : RequestData) (v : PyVal) (n : Int)
    (hv : data.num_videos = some v) (hpv : pyInt v = some n) (hn : n ≤ 10) :
    "Number of videos must be greater than 10" ∈ validate_inputs data := by
  unfold validate_inputs
  simp [hv, hpv, hn]

theorem validate_inputs_dur_at_most (data : RequestData) (v : PyVal) (n : Int)
    (hv : data.duration = some v) (hpv : pyInt v = some n) (hn : n ≤ 20) :
    "Duration must be greater than 20 seconds" ∈ validate_inputs data := by
  unfold validate_inputs
  simp [hv, hpv, hn]

/-! ### Claim theorems -/

/-- Claim C1: for every run of `create_mashup` (any environment, hence any
singer, any outcome of the download, trim/merge, zip and email stages, and
whether or not `shutil.rmtree` itself fails), removal of the workspace
temp directory is attempted exactly once; the run's outcome is a function
of the stage results alone, and changing whether the removal fails never
changes the outcome — a removal failure never replaces or masks the run's
original result or error. -/
theorem create_mashup_cleanup_once (singer : String) (duration : Nat) (env : RunEnv) :
    (create_mashup singer duration env).cleanupAttempts = 1 ∧
    ((create_mashup singer duration env).outcome =
      match stageResult singer duration env with
      | Except.ok v => Except.ok v
      | Except.error m => Except.error (if timeIndicated m then timeoutHintMsg else m)) ∧
    (∀ b : Bool,
      (create_mashup singer duration { env with rmtreeRaises := b }).outcome =
        (create_mashup singer duration env).outcome) := by
  have hb : ∀ b : Bool,
      stageResult singer duration { env with rmtreeRaises := b } =
        stageResult singer duration env := fun _ => rfl
  refine ⟨?_, ?_, ?_⟩
  · rw [create_mashup_eq]
  · rw [create_mashup_eq]
  · intro b
    rw [create_mashup_eq, create_mashup_eq, hb]

/-- Claim C9: inside `create_mashup`, a stage failure whose message passes
the time-based test of line 222 (`"timeout" in msg.lower() or
"time" in msg.lower()`) is rewritten to the fixed hint suggesting fewer
videos or a longer execution-time budget, and a failure whose message does
not pass that test is re-raised unchanged. -/
theorem create_mashup_timeout_rewrite (singer : String) (duration : Nat) (env : RunEnv)
    (m : String) (h : stageResult singer duration env = Except.error m) :
    (timeIndicated m = true →
      (create_mashup singer duration env).outcome = Except.error timeoutHintMsg) ∧
    (timeIndicated m = false →
      (create_mashup singer duration env).outcome = Except.error m) := by
  constructor <;> intro ht <;> rw [create_mashup_eq] <;> simp [h, ht]

/-- Witness for C9: a run whose download stage raises `Read timed out` ends
with the rewritten timeout hint. -/
theorem create_mashup_timeout_rewrite_witness :
    (create_mashup "adele" 21 envT).outcome = Except.error timeoutHintMsg := by
  have h :=
    create_mashup_timeout_rewrite "adele" 21 envT "Download failed: Read timed out" rfl
  exact h.1 (by decide)

/-- Claim C6 counterexample: when the provider transport raises (here
`Connection refused`) for the search term `adele`, `download_and_convert`
fails as the claim says, but the raised message is
`Download failed: Connection refused`, which does not name the search
term — refuting the claim that every such failure names it. -/
theorem download_message_counterexample :
    errMsg (download_and_convert "adele" (ProviderOutcome.raised "Connection refused")) =
      some "Download failed: Connection refused" ∧
    isSubstr "adele".data "Download failed: Connection refused".data = false :=
  ⟨rfl, by decide⟩

/-- Claim C6 (amended): `download_and_convert` fails exactly when the
provider raises or returns no usable result set; when the provider returns
no result set the message names the search term; when the provider raises,
the message is `Download failed: ` followed by the provider's own text,
which need not name the search term. -/
theorem download_and_convert_contract (singer : String) (o : ProviderOutcome) :
    (errMsg (download_and_convert singer o) = none ↔
      o = ProviderOutcome.returned (some ())) ∧
    (o = ProviderOutcome.returned none →
      ∀ m, errMsg (download_and_convert singer o) = some m →
        isSubstr singer.data m.data = true) ∧
    (∀ m, o = ProviderOutcome.raised m →
      errMsg (download_and_convert singer o) = some ("Download failed: " ++ m)) := by
  refine ⟨?_, ?_, ?_⟩
  · cases o with
    | raised m => simp [download_and_convert, errMsg]
    | returned info =>
      cases info with
      | none => simp [download_and_convert, errMsg]
      | some u => cases u; simp [download_and_convert, errMsg]
  · intro ho m hm
    subst ho
    simp only [download_and_convert, errMsg, Option.some.injEq] at hm
    subst hm
    have h := isSubstr_append_left
      ("Download failed: ".data ++ "Could not find videos for \x27".data)
      singer.data "\x27".data
    rw [show ("Download failed: ".data ++ "Could not find videos for \x27".data) ++
        (singer.data ++ "\x27".data) =
        ("Download failed: " ++ ("Could not find videos for \x27" ++ singer ++ "\x27")).data by
      simp [string_append_data, List.append_assoc]] at h
    exact h
  · intro m ho
    subst ho
    rfl

/-- Witness for the amended C6: with the provider returning no result set
for `adele`, the failure message contains the search term. -/
theorem download_and_convert_contract_witness :
    isSubstr "adele".data
      "Download failed: Could not find videos for \x27adele\x27".data = true := by
  have h := (download_and_convert_contract "adele" (ProviderOutcome.returned none)).2.1 rfl
    "Download failed: Could not find videos for \x27adele\x27" rfl
  exact h

/-- Claim C7: `send_email` reads the delivery credential from the process
environment as observed at call time; when it is absent (unset, or set to
the empty string — Python's `if not api_key:` treats both as missing) the
run fails with the configuration message of line 146, which is distinct
from every delivery/transport failure message `send_email` can produce
with a usable credential, and the workspace teardown of `create_mashup`
still happens exactly once. -/
theorem send_email_missing_key (singer : String) (duration : Nat) (env : RunEnv)
    (hkey : pyFalsyKey env.email.resend_api_key = true)
    (hdl : env.provider = ProviderOutcome.returned (some ()))
    (htrim : errMsg (trim_and_merge env.listing duration) = none)
    (hzip : env.zipError = none) :
    (create_mashup singer duration env).outcome = Except.error configErrorMsg ∧
    (create_mashup singer duration env).cleanupAttempts = 1 ∧
    (∀ env2 : EmailEnv, ∀ m, pyFalsyKey env2.resend_api_key = false →
      errMsg (send_email env2) = some m → m ≠ configErrorMsg) := by
  have hmail : send_email env.email = Except.error configErrorMsg := by
    rw [send_email, if_pos hkey]
  obtain ⟨a, ha⟩ : ∃ a, trim_and_merge env.listing duration = Except.ok a := by
    cases h : trim_and_merge env.listing duration with
    | ok a => exact ⟨a, rfl⟩
    | error m => rw [h] at htrim; exact absurd htrim (by simp [errMsg])
  have hstage : stageResult singer duration env = Except.error configErrorMsg := by
    rw [stageResult, hdl, hzip]
    simp only [download_and_convert, create_zip, ha, hmail]
    rfl
  refine ⟨?_, ?_, ?_⟩
  · rw [create_mashup_eq]
    simp [hstage, show timeIndicated configErrorMsg = false by decide]
  · rw [create_mashup_eq]
  · intro env2 m hnf hm
    rw [send_email, if_neg (by simp [hnf])] at hm
    cases hh : env2.http with
    | raisedHttp t =>
      simp only [hh, errMsg, Option.some.injEq] at hm
      subst hm
      exact sendFail_ne_configErrorMsg t
    | response status text =>
      simp only [hh] at hm
      by_cases hs : status = 200
      · rw [if_pos hs] at hm
        exact absurd hm (by simp [errMsg])
      · rw [if_neg hs] at hm
        simp only [errMsg, Option.some.injEq] at hm
        subst hm
        exact sendFail_ne_configErrorMsg _

/-- Witness for C7: a concrete run with the credential unset fails with the
configuration message and still performs exactly one cleanup attempt. -/
theorem send_email_missing_key_witness :
    (create_mashup "adele" 21 envK).outcome = Except.error configErrorMsg ∧
    (create_mashup "adele" 21 envK).cleanupAttempts = 1 := by
  have h := send_email_missing_key "adele" 21 envK rfl rfl rfl rfl
  exact ⟨h.1, h.2.1⟩

/-- Claim C8: with a usable credential present (set and non-empty, so the
`if not api_key:` check of line 145 passes), `send_email` succeeds exactly
when the provider responds with status 200; any other status, and any
transport-level exception, yields a delivery failure whose message contains
the provider's raw error text. -/
theorem send_email_provider_contract (k : String) (env : EmailEnv)
    (hk : env.resend_api_key = some k) (hkne : k ≠ "") :
    ((∃ t, env.http = HttpOutcome.response 200 t) ↔ send_email env = Except.ok true) ∧
    (∀ status text, env.http = HttpOutcome.response status text → status ≠ 200 →
      ∃ m, errMsg (send_email env) = some m ∧ isSubstr text.data m.data = true) ∧
    (∀ em, env.http = HttpOutcome.raisedHttp em →
      ∃ m, errMsg (send_email env) = some m ∧ isSubstr em.data m.data = true) := by
  have hnf : pyFalsyKey env.resend_api_key = false := by
    rw [hk]
    simp [pyFalsyKey, hkne]
  refine ⟨?_, ?_, ?_⟩
  · constructor
    · rintro ⟨t, ht⟩
      simp [send_email, hnf, ht]
    · intro hok
      rw [send_email, if_neg (by simp [hnf])] at hok
      cases hh : env.http with
      | raisedHttp m =>
        simp only [hh] at hok
        exact absurd hok (by simp)
      | response status text =>
        simp only [hh] at hok
        by_cases hs : status = 200
        · exact ⟨text, by rw [hs]⟩
        · rw [if_neg hs] at hok
          exact absurd hok (by simp)
  · intro status text hh hs
    have hse : send_email env =
        Except.error ("Failed to send email: " ++ ("Resend API error: " ++ text)) := by
      simp [send_email, hnf, hh, hs]
    rw [hse]
    refine ⟨_, rfl, ?_⟩
    have h := isSubstr_in_append
      ("Failed to send email: ".data ++ "Resend API error: ".data) text.data
    rw [show ("Failed to send email: ".data ++ "Resend API error: ".data) ++ text.data =
        ("Failed to send email: " ++ ("Resend API error: " ++ text)).data by
      simp [string_append_data, List.append_assoc]] at h
    exact h
  · intro em hh
    have hse : send_email env = Except.error ("Failed to send email: " ++ em) := by
      simp [send_email, hnf, hh]
    rw [hse]
    refine ⟨_, rfl, ?_⟩
    have h := isSubstr_in_append "Failed to send email: ".data em.data
    rw [show "Failed to send email: ".data ++ em.data =
        ("Failed to send email: " ++ em).data by simp [string_append_data]] at h
    exact h

/-- Witness for C8: a credentialed environment whose provider answers with
status 200 makes `send_email` succeed. -/
theorem send_email_provider_contract_witness :
    send_email emailEnvOk = Except.ok true := by
  exact (send_email_provider_contract "key" emailEnvOk rfl (by decide)).1.mp ⟨"ok", rfl⟩

/-- Claim C2 counterexample: acquisition produced `srcA` then `srcB`, and
`[srcB, srcA]` is a legal `os.listdir` result for that directory (listdir
returns the files in arbitrary order, i.e. some permutation); on that
listing `trim_and_merge` outputs waveform `[2, 1]`, not the
acquisition-order concatenation `[1, 2]` — refuting the claim that the
composite order always equals the source-acquisition order. -/
theorem trim_order_not_acquisition_order :
    List.Perm [srcB, srcA] [srcA, srcB] ∧
    okVal (trim_and_merge [srcB, srcA] 21) = some [2, 1] ∧
    specAcquisitionMerge [srcA, srcB] 21 = [1, 2] ∧
    ([2, 1] : Audio) ≠ ([1, 2] : Audio) :=
  ⟨List.Perm.swap srcA srcB [], rfl, rfl, by decide⟩

/-- Claim C2 (amended): for every non-empty set of processed clips, the
composite produced by `trim_and_merge` concatenates the clip waveforms
strictly in ascending ordinal order; that order is deterministic given the
directory listing and equals the listing order (the order `os.listdir`
returned the downloaded files), which is a permutation of — but not
guaranteed to equal — the source-acquisition order. -/
theorem trim_and_merge_listing_order (listing : List SourceFile) (duration : Nat)
    (out : Audio) (h : trim_and_merge listing duration = Except.ok out) :
    out = ((trimLoop duration (mp3Files listing)).map Prod.snd).flatten ∧
    List.Pairwise (· < ·) ((trimLoop duration (mp3Files listing)).map Prod.fst) ∧
    trimLoop duration (mp3Files listing) ≠ [] := by
  rw [trim_and_merge] at h
  by_cases h1 : (mp3Files listing).isEmpty
  · rw [if_pos h1] at h
    exact absurd h (by simp)
  · rw [if_neg h1] at h
    by_cases h2 : (trimLoop duration (mp3Files listing)).isEmpty
    · rw [if_pos h2] at h
      exact absurd h (by simp)
    · rw [if_neg h2] at h
      refine ⟨?_, trimLoopAux_ordinals_sorted duration (mp3Files listing) 1, ?_⟩
      · have hinj : ((trimLoop duration (mp3Files listing)).map Prod.snd).foldl
            (fun a b => a ++ b) [] = out := by
          cases h
          rfl
        rw [← hinj, foldl_append_eq_flatten]
        simp
      · intro hnil
        rw [hnil] at h2
        exact h2 rfl

/-- Witness for the amended C2: on a concrete two-file listing the output
equals the flattened clips in listing order. -/
theorem trim_and_merge_listing_order_witness :
    ([2, 1] : Audio) =
      ((trimLoop 21 (mp3Files [srcB, srcA])).map Prod.snd).flatten ∧
    List.Pairwise (· < ·) ((trimLoop 21 (mp3Files [srcB, srcA])).map Prod.fst) := by
  have h := trim_and_merge_listing_order [srcB, srcA] 21 [2, 1] rfl
  exact ⟨h.1, h.2.1⟩

/-- Claim C4 counterexample: with sources good, bad, good (the middle one
failing to decode), the trim loop processes both good sources (the failure
does not abort the loop), but the produced ordinals are `[1, 3]`, not the
consecutive `[1, 2] = range' 1 2`: the skipped source does consume an
ordinal, refuting the no-ordinal-consumed part of the claim. -/
theorem trimLoop_ordinal_gap_counterexample :
    trimLoop 21 [⟨"a.mp3", some [1]⟩, ⟨"b.mp3", none⟩, ⟨"c.mp3", some [3]⟩]
      = [(1, [1]), (3, [3])] ∧
    (trimLoop 21 [⟨"a.mp3", some [1]⟩, ⟨"b.mp3", none⟩, ⟨"c.mp3", some [3]⟩]).map Prod.fst
      ≠ List.range' 1 2 :=
  ⟨rfl, by decide⟩

/-- Claim C4 (amended): a decode failure on one source is caught and that
source is skipped without aborting the rest: the clips produced are exactly
one per decodable file, each trimmed and paired with the 1-based position
of its file in the listing — so every source, including a skipped one,
consumes an ordinal, and the ordinals of the produced clips can have gaps
(they are not in general consecutive). -/
theorem trimLoop_skip_contract (duration : Nat) (files : List SourceFile) :
    trimLoop duration files =
      (List.enumFrom 1 files).filterMap
        (fun p => p.2.decode.map (fun a => (p.1, pyTrim a duration))) :=
  trimLoopAux_eq_enumFrom duration files 1

/-- Claim C5: `trim_and_merge` truncates each decoded waveform to the first
`duration` seconds (`duration * 1000` millisecond samples), the truncation
is a no-op (not an error) on a waveform already no longer than that, and
when the listing holds at least one `.mp3` file and every one of them
decodes, the merge succeeds and the composite's length is the sum over
those files of `min(duration * 1000, sourceLength)`. -/
theorem trim_and_merge_duration_sum (listing : List SourceFile) (duration : Nat)
    (h1 : mp3Files listing ≠ [])
    (h2 : ∀ f ∈ mp3Files listing, f.decode ≠ none) :
    (∀ a : Audio, a.length ≤ duration * 1000 → pyTrim a duration = a) ∧
    ∃ out, trim_and_merge listing duration = Except.ok out ∧
      out.length =
        ((mp3Files listing).map
          (fun f => min (duration * 1000) ((f.decode.getD []).length))).sum := by
  constructor
  · intro a ha
    exact List.take_of_length_le ha
  · have hsnd := trimLoopAux_all_decode duration (mp3Files listing) 1 h2
    have hne : (mp3Files listing).isEmpty = false := by
      cases hm : mp3Files listing with
      | nil => exact absurd hm h1
      | cons f fs => rfl
    have htne : (trimLoop duration (mp3Files listing)).isEmpty = false := by
      cases ht : trimLoop duration (mp3Files listing) with
      | nil =>
        rw [trimLoop] at ht
        rw [ht] at hsnd
        have : mp3Files listing = [] := by
          have := hsnd.symm
          simpa using List.map_eq_nil_iff.mp this
        exact absurd this h1
      | cons p ps => rfl
    refine ⟨((trimLoop duration (mp3Files listing)).map Prod.snd).flatten, ?_, ?_⟩
    · rw [trim_and_merge]
      simp only [hne, Bool.false_eq_true, if_false, htne]
      rw [foldl_append_eq_flatten]
      simp [trimLoop]
    · rw [trimLoop, hsnd, List.length_flatten, List.map_map]
      congr 1
      refine List.map_congr_left ?_
      intro f hf
      simp [pyTrim, List.length_take]

/-- Witness for C5: a single short source of 2 samples with duration 21
yields a composite of length `min(21000, 2) = 2`. -/
theorem trim_and_merge_duration_sum_witness :
    ∃ out, trim_and_merge [⟨"a.mp3", some [5, 5]⟩] 21 = Except.ok out ∧
      out.length = 2 := by
  have h := trim_and_merge_duration_sum [⟨"a.mp3", some [5, 5]⟩] 21 (by decide) (by decide)
  obtain ⟨out, ho, hl⟩ := h.2
  exact ⟨out, ho, by rw [hl]; decide⟩

/-- Claim C3: a request whose `num_videos` coerces to the boundary value 10
or whose `duration` coerces to the boundary value 20 is rejected by
`validate_inputs` (the strict `> 10` / `> 20` checks fail), so `do_POST`
answers 400 and `create_mashup` is never invoked. -/
theorem boundary_request_rejected (data : RequestData)
    (h : data.num_videos.bind pyInt = some 10 ∨ data.duration.bind pyInt = some 20) :
    (∃ e, do_POST_core data = PostOutcome.badRequest e) ∧
    invokesPipeline (do_POST_core data) = false := by
  have hne : validate_inputs data ≠ [] := by
    rcases h with h | h
    · rcases Option.bind_eq_some.mp h with ⟨v, hv, hpv⟩
      exact List.ne_nil_of_mem
        (validate_inputs_num_at_most data v 10 hv hpv (le_refl 10))
    · rcases Option.bind_eq_some.mp h with ⟨v, hv, hpv⟩
      exact List.ne_nil_of_mem
        (validate_inputs_dur_at_most data v 20 hv hpv (le_refl 20))
  have hE : (validate_inputs data).isEmpty = false := by
    cases hv : validate_inputs data with
    | nil => exact absurd hv hne
    | cons a l => rfl
  have hpost : do_POST_core data =
      PostOutcome.badRequest (String.intercalate "; " (validate_inputs data)) := by
    rw [do_POST_core]
    simp [hE]
  exact ⟨⟨_, hpost⟩, by rw [hpost]; rfl⟩

/-- Witness for C3: the concrete request with `num_videos = 10` and all
other fields valid never invokes `create_mashup`. -/
theorem boundary_request_rejected_witness :
    invokesPipeline (do_POST_core boundaryData) = false :=
  (boundary_request_rejected boundaryData (Or.inl rfl)).2

/-- Claim C10: `validate_inputs` accepts the integer fields as decimal
strings: when `num_videos` and `duration` are strings that Python `int`
parses to values exceeding 10 and 20 and the other fields are valid,
validation reports no errors and `do_POST` invokes `create_mashup` with the
coerced integer values (and the stripped singer and email). -/
theorem string_fields_accepted (s nstr dstr em : String) (n d : Int)
    (hs : pyStrip s ≠ "")
    (hn : pyIntOfStr nstr = some n) (h10 : 10 < n)
    (hd : pyIntOfStr dstr = some d) (h20 : 20 < d)
    (he : validate_email em = true) :
    validate_inputs ⟨some s, some (PyVal.str nstr), some (PyVal.str dstr), some em⟩ = [] ∧
    do_POST_core ⟨some s, some (PyVal.str nstr), some (PyVal.str dstr), some em⟩ =
      PostOutcome.ranPipeline (pyStrip s) n d (pyStrip em) := by
  have hval : validate_inputs
      ⟨some s, some (PyVal.str nstr), some (PyVal.str dstr), some em⟩ = [] := by
    rw [validate_inputs]
    simp [pyInt, hs, hn, hd, he, not_le.mpr h10, not_le.mpr h20]
  refine ⟨hval, ?_⟩
  rw [do_POST_core]
  simp [hval, pyInt, hn, hd]

/-- Witness for C10: the request with fields `"15"` and `"25"` passes
validation and runs the pipeline with 15 and 25. -/
theorem string_fields_accepted_witness :
    validate_inputs ⟨some "dua lipa", some (PyVal.str "15"),
      some (PyVal.str "25"), some "a@b.co"⟩ = [] ∧
    do_POST_core ⟨some "dua lipa", some (PyVal.str "15"),
      some (PyVal.str "25"), some "a@b.co"⟩ =
      PostOutcome.ranPipeline "dua lipa" 15 25 "a@b.co" := by
  have h := string_fields_accepted "dua lipa" "15" "25" "a@b.co" 15 25
    (by decide) (by decide) (by decide) (by decide) (by decide) (by decide)
  exact ⟨h.1, h.2⟩
